import Mathlib

/-!
Verification of the SDS-Manager MCP server (session/credential lifecycle and the
two upload state machines) against its natural-language specification.

The Python source (`utils.py`, `cache.py`, `tools.py`, `main.py`) is shallowly
embedded below.  Conventions of the embedding:

* A Redis value is modelled by a Lean structure whose fields are the dictionary
  keys the code reads or writes; a key absent from the dictionary is `none`.
* A tool reads and writes at most two cache keys (its session record
  `sds_mcp:{handle}` and its upload record); each embedded tool therefore takes
  the current values of those records and returns the values they hold after
  the call (the cache layer `RedisClient.set` always stores with the configured
  TTL; TTLs are not otherwise observable in the claims and are not modelled).
* Backend HTTP calls are modelled by a parameter describing the outcome the
  call would have (parsed 200 body, non-200 response, raised transport
  exception); a `backendCalled` flag in each result records whether the
  request was issued.
* Free-text `instruction` lists attached to response envelopes carry no state
  and are not compared by any claim; they are omitted from the envelope model.
* Python truthiness of optional values (`if not x`) is modelled by the
  `strTruthy` / `intTruthy` / `listTruthy` helpers.
-/

namespace SdsMcp

/-- Python truthiness for an optional string: `None` and `""` are falsy. -/
def strTruthy : Option String → Bool
  | none => false
  | some s => s != ""

/-- Python truthiness for an optional integer: `None` and `0` are falsy. -/
def intTruthy : Option Int → Bool
  | none => false
  | some n => n != 0

/-- Python truthiness for an optional list: `None` and `[]` are falsy. -/
def listTruthy {α : Type} : Option (List α) → Bool
  | none => false
  | some l => !l.isEmpty

/-- Python f-string rendering of an optional string: `None` prints as "None". -/
def pyShowOptStr : Option String → String
  | none => "None"
  | some s => s

/-- Modelled from the spec: `config.DOMAIN`, the environment-configured public
base URL of the upload/login web forms (the `config.py` in the repository does
not define it; every claim is independent of its concrete value). -/
def DOMAIN : String := "https://mcp.sdsmanager.example"

/-- Session record stored under `sds_mcp:{handle}` (the fields the embedded
code reads or writes; `main.py /login` additionally stores profile fields,
which no claim consults). -/
structure SessionRec where
  logged_in : Bool
  login_error : Bool := false
  error_message : Option String := none
  api_key : Option String := none
  deriving DecidableEq, Repr

/-- Payload of the backend extraction-status endpoint
(`models.GetExtractionStatusApiResponse.model_dump(by_alias=True)`), reduced to
its scalar fields; the nested file/booklet dictionaries are never inspected by
the embedded code, only stored and echoed. -/
structure ExtractData where
  email : String
  request_id : String
  step : String
  progress : Int
  deriving DecidableEq, Repr

/-- The `data` dictionary of a response envelope: union of the optional fields
the embedded tools ever place there (a field the tool does not set is `none`,
i.e. the key is absent). `extract` stands for the `**data` /
`**upload_info.get("data", {})` spread of an extraction-status payload. -/
structure RespData where
  error_message : Option String := none
  upload_url : Option String := none
  session_handle : Option String := none
  request_id : Option String := none
  progress : Option Int := none
  product_list_id : Option String := none
  extracted_columns : Option (List String) := none
  status_code : Option Int := none
  error_code : Option String := none
  extract : Option ExtractData := none
  message : Option String := none
  login_url : Option String := none
  deriving DecidableEq, Repr

/-- Response envelope `{status, code, data?, instruction, trace_id}` (the
free-text `instruction` list is omitted, see the file header). -/
structure Resp where
  status : String
  code : String
  data : Option RespData := none
  trace_id : String
  deriving DecidableEq, Repr

/-- Cache key of a session record (`sds_mcp:{handle}`). -/
def sessionKey (handle : String) : String := "sds_mcp:" ++ handle

/-- utils.py `validate_session` error envelope for an absent record. -/
def sessionExpiredResp (sh : String) : Resp :=
  { status := "error", code := "SESSION_EXPIRED", data := none, trace_id := sh }

/-- utils.py `validate_session` error envelope for a not-logged-in record. -/
def authenticationErrorResp (sh : String) (msg : Option String) : Resp :=
  { status := "error", code := "AUTHENTICATION_ERROR",
    data := some { error_message := msg }, trace_id := sh }

/-- utils.py `api_error_response`. -/
def api_error_response (sh : String) (statusCode : Int) (msg : String) : Resp :=
  { status := "error", code := "API_ERROR",
    data := some { status_code := some statusCode, error_message := some msg },
    trace_id := sh }

/-- utils.py `connection_error_response`. -/
def connection_error_response (sh : String) (msg : String) : Resp :=
  { status := "error", code := "CONNECTION_ERROR",
    data := some { error_message := some msg }, trace_id := sh }

/-- utils.py `server_error_response`. -/
def server_error_response (sh : String) (statusCode : Int) (msg : String) : Resp :=
  { status := "error", code := "SERVER_ERROR",
    data := some { status_code := some statusCode, error_message := some msg },
    trace_id := sh }

/-- First component of `validate_session`'s pair: either an error envelope
(returned with `True`) or the session record itself (returned with `False`). -/
inductive VSResult where
  | err (resp : Resp)
  | ok (info : SessionRec)
  deriving DecidableEq, Repr

/-- Result of `validate_session`: the returned pair plus the value the session
key holds afterwards (on the logged-in path the code re-`set`s the identical
record, so the stored value never changes). -/
structure VSOut where
  result : VSResult
  is_expired : Bool
  sessionAfter : Option SessionRec
  deriving DecidableEq, Repr

/-- utils.py lines 7-34: `validate_session(session_handle)`.  `store` is the
current value of `sds_mcp:{session_handle}`. -/
def validate_session (sh : String) (store : Option SessionRec) : VSOut :=
  match store with
  | none => { result := .err (sessionExpiredResp sh), is_expired := true, sessionAfter := none }
  | some info =>
    if !info.logged_in then
      { result := .err (authenticationErrorResp sh info.error_message),
        is_expired := true, sessionAfter := some info }
    else
      -- redis_client.set(session_key, info): rewrites the identical record
      { result := .ok info, is_expired := false, sessionAfter := some info }

/-- Parsed JSON body of an upstream error response (`error_message` /
`error_code` keys, each possibly absent). -/
structure ApiErrBody where
  error_message : Option String := none
  error_code : Option String := none
  deriving DecidableEq, Repr

/-- Result of `handle_api_error`: the classified envelope plus the value the
session key holds afterwards. -/
structure HAEOut where
  resp : Resp
  sessionAfter : Option SessionRec
  deriving DecidableEq, Repr

/-- utils.py lines 57-108: `handle_api_error(response, session_handle)`, given
the response's status code, raw text and parsed JSON body, and the current
session record. -/
def handle_api_error (sh : String) (statusCode : Int) (respText : String)
    (body : ApiErrBody) (store : Option SessionRec) : HAEOut :=
  let error_msg := body.error_message
  let error_code := body.error_code
  if !strTruthy error_msg || !strTruthy error_code then
    { resp := api_error_response sh statusCode respText, sessionAfter := store }
  else if error_code == some "NOT_EXISTED_API_KEY" then
    let store' : Option SessionRec :=
      match store with
      | some _ => some { logged_in := false, login_error := true, error_message := error_msg }
      | none => none
    { resp := { status := "error", code := "API_KEY_INVALID",
                data := some { status_code := some statusCode, error_code := error_code,
                               error_message := error_msg },
                trace_id := sh },
      sessionAfter := store' }
  else if error_code == some "AUTHENTICATION_AUTH_IS_NOT_ACTIVE_BAD_REQUEST"
       || error_code == some "API_KEY_NOT_ACTIVE"
       || error_code == some "SUBSCRIPTION_ACCESS_MCP_CHAT_AGENT_NOT_PERMISSION"
       || error_code == some "CUSTOMER_SUBSCRIPTION_DOES_NOT_EXIST" then
    { resp := { status := "error", code := "AUTHORIZATION_ERROR",
                data := some { status_code := some statusCode, error_code := error_code,
                               error_message := error_msg },
                trace_id := sh },
      sessionAfter := store }
  else
    { resp := api_error_response sh statusCode (error_msg.getD ""), sessionAfter := store }

/-- Result of `get_login_url`: the envelope plus the list of cache writes it
performed (key together with the written record). -/
structure GLUOut where
  resp : Resp
  writes : List (String × SessionRec)
  deriving DecidableEq, Repr

/-- tools.py lines 80-161: `get_login_url(session_handle)`.  `lookup` is the
current value of `sds_mcp:{h}` for the supplied handle; `freshHandle` models
the `uuid.uuid4()` drawn when a new session is created. -/
def get_login_url (session_handle : Option String) (lookup : Option SessionRec)
    (freshHandle : String) : GLUOut :=
  let reuse : Option GLUOut :=
    match session_handle with
    | none => none
    | some h =>
      if h == "" then none  -- falsy handle: `if session_handle:` fails
      else
        match lookup with
        | none => none
        | some info =>
          if info.logged_in then
            some { resp := { status := "success", code := "SESSION_REUSED",
                             data := some { session_handle := some h,
                                            message := some "Session reused. You are already logged in." },
                             trace_id := h },
                   writes := [] }
          else
            some { resp := { status := "success", code := "SESSION_REUSED",
                             data := some { session_handle := some h,
                                            message := some "Login URL re-generated! Please login with your API key.",
                                            login_url := some (DOMAIN ++ "/login?session_id=" ++ h) },
                             trace_id := h },
                   writes := [] }
  match reuse with
  | some out => out
  | none =>
    { resp := { status := "success", code := "SESSION_CREATED",
                data := some { session_handle := some freshHandle,
                               message := some "Login URL generated! Please login with your API key.",
                               login_url := some (DOMAIN ++ "/login?session_id=" ++ freshHandle) },
                trace_id := freshHandle },
      writes := [(sessionKey freshHandle, { logged_in := false, login_error := false })] }

theorem sessionKey_injective (a b : String) (h : sessionKey a = sessionKey b) : a = b := by
  apply String.ext
  have h2 := congrArg String.data h
  simpa [sessionKey, String.data_append] using h2

/-! ### PDF upload flow (tools.py `check_upload_sds_pdf_status`) -/

/-- PDF upload record stored under `upload_sds_pdf:{handle}:{request_id}`
(fields written by tools.py / main.py `/upload`; absent key = `none`). -/
structure PdfRec where
  session_id : Option String := none
  request_id : Option String := none
  status : Option String := none
  location_id : Option String := none
  file : Option String := none
  progress : Option Int := none
  data : Option ExtractData := none
  error_message : Option String := none
  status_code : Option Int := none
  deriving DecidableEq, Repr

/-- utils.py lines 111-125: `reset_upload_session` for a PDF upload key: a
fresh `inited` record, keeping `location_id` only when truthy. -/
def resetPdfRec (sh rid : String) (loc : Option String) : PdfRec :=
  { session_id := some sh, request_id := some rid, status := some "inited",
    location_id := if strTruthy loc then loc else none }

/-- Outcome of the backend `getExtractionStatus` GET: a parsed 200 body, a
non-200 response (with its JSON body when parseable), or a raised
transport-level exception (`requests.exceptions.RequestException`). -/
inductive GetResult where
  | ok (d : ExtractData)
  | httpError (statusCode : Int) (body : Option ApiErrBody) (text : String)
  | transportError (msg : String)
  deriving DecidableEq, Repr

/-- Result of `check_upload_sds_pdf_status`: the envelope, the session and
upload record values after the call, and whether the backend was called. -/
structure CheckPdfOut where
  resp : Resp
  sessionAfter : Option SessionRec
  uploadAfter : Option PdfRec
  backendCalled : Bool
  deriving DecidableEq, Repr

/-- Upload-form URL handed back by the PDF flow (tools.py line 2156). -/
def pdfUploadUrl (sh loc rid : String) : String :=
  DOMAIN ++ "/upload?session_id=" ++ sh ++ "&department_id=" ++ loc ++ "&request_id=" ++ rid

/-- Error envelope for an absent PDF upload record (tools.py lines 2115-2123). -/
def uploadSessionExpiredResp (sh : String) : Resp :=
  { status := "error", code := "UPLOAD_SESSION_EXPIRED", data := none, trace_id := sh }

/-- tools.py lines 2069-2216: `check_upload_sds_pdf_status(session_handle,
request_id)`.  `session` / `upload` are the current values of the two cache
records; `backend` the outcome the extraction-status GET would have. -/
def check_upload_sds_pdf_status (sh rid : String) (session : Option SessionRec)
    (upload : Option PdfRec) (backend : GetResult) : CheckPdfOut :=
  match validate_session sh session with
  | { result := .err r, sessionAfter := sAfter, .. } =>
    { resp := r, sessionAfter := sAfter, uploadAfter := upload, backendCalled := false }
  | { result := .ok _info, sessionAfter := sAfter, .. } =>
    match upload with
    | none =>
      { resp := uploadSessionExpiredResp sh, sessionAfter := sAfter,
        uploadAfter := none, backendCalled := false }
    | some u =>
      if u.status == some "finished" then
        { resp := { status := "success", code := "UPLOAD_FINISHED",
                    data := some { session_handle := some sh, request_id := some rid,
                                   progress := u.progress, extract := u.data },
                    trace_id := sh },
          sessionAfter := sAfter, uploadAfter := some u, backendCalled := false }
      else if !(u.status == some "uploaded" || u.status == some "extracting") then
        if !strTruthy u.location_id then
          { resp := { status := "error", code := "UPLOAD_ERROR",
                      data := some { error_message := some "Not found location" },
                      trace_id := sh },
            sessionAfter := sAfter, uploadAfter := some u, backendCalled := false }
        else
          let loc := u.location_id.getD ""
          let upload_url := pdfUploadUrl sh loc rid
          let error :=
            if u.status == some "error" then
              "Upload error: " ++ pyShowOptStr u.error_message ++ ". Please try again."
            else "Upload not completed. Please try again."
          { resp := { status := "error", code := "UPLOAD_ERROR",
                      data := some { error_message := some error, upload_url := some upload_url },
                      trace_id := sh },
            sessionAfter := sAfter,
            uploadAfter := some (resetPdfRec sh rid u.location_id), backendCalled := false }
      else
        match backend with
        | .ok d =>
          let progress := d.progress
          let newRec : PdfRec :=
            { u with status := some (if progress < 100 then "extracting" else "finished"),
                     data := some d, progress := some progress }
          { resp := { status := "success", code := "UPLOAD_EXTRACTING",
                      data := some { session_handle := some sh, request_id := some rid,
                                     progress := some progress, extract := some d },
                      trace_id := sh },
            sessionAfter := sAfter, uploadAfter := some newRec, backendCalled := true }
        | .httpError sc body text =>
          match body with
          | some b =>
            let hae := handle_api_error sh sc text b sAfter
            { resp := hae.resp, sessionAfter := hae.sessionAfter,
              uploadAfter := some u, backendCalled := true }
          | none =>
            { resp := server_error_response sh sc text, sessionAfter := sAfter,
              uploadAfter := some u, backendCalled := true }
        | .transportError msg =>
          { resp := connection_error_response sh msg, sessionAfter := sAfter,
            uploadAfter := some u, backendCalled := true }

/-! ### Product-list import flow (tools.py `validate_upload_product_list_excel_data`
and `process_upload_product_list_excel_data`) -/

/-- Python dict assignment `d[k] = v`: overwrite in place, else append
(insertion order preserved). -/
def dictAssign {α : Type} (d : List (String × α)) (k : String) (v : α) :
    List (String × α) :=
  if d.any (fun p => p.1 == k) then
    d.map (fun p => if p.1 == k then (k, v) else p)
  else d ++ [(k, v)]

/-- Python dict lookup `d[k]` / `k in d`. -/
def dictGet {α : Type} (d : List (String × α)) (k : String) : Option α :=
  (d.find? (fun p => p.1 == k)).map Prod.snd

/-- A spreadsheet cell as produced by `pd.read_excel(...).to_dict('records')`:
a string, a number, NaN (empty cell), or some other object (e.g. a timestamp)
that `json.dumps` cannot serialize. -/
inductive Cell where
  | str (s : String)
  | num (n : Int)
  | nan
  | obj (tag : String)
  deriving DecidableEq, Repr

/-- Python falsiness of a cell value (`if not value`): `""` and `0`.
NaN is truthy in Python; it is skipped by the separate `pd.isna` test. -/
def cellFalsy : Cell → Bool
  | .str s => s == ""
  | .num n => n == 0
  | .nan => false
  | .obj _ => false

/-- `pd.isna(value)`. -/
def cellIsNa : Cell → Bool
  | .nan => true
  | _ => false

/-- tools.py lines 2592-2594: invert the caller's `mapped_data` (field → column)
into `column_mapping` (column → field), later assignments overwriting. -/
def columnMapping (mapped_data : List (String × String)) : List (String × String) :=
  mapped_data.foldl (fun cm kv => dictAssign cm kv.2 kv.1) []

/-- Python `str.lower()`, character by character (the source only applies it
to ASCII spreadsheet headers). -/
def pyLower (s : String) : String := ⟨s.data.map Char.toLower⟩

/-- Python `str.upper()`, character by character. -/
def pyUpper (s : String) : String := ⟨s.data.map Char.toUpper⟩

/-- tools.py lines 2603-2610: project one spreadsheet row through
`column_mapping`, skipping falsy/NaN cells, lowercasing the sheet header before
the lookup and uppercasing the mapped field name. -/
def extractRow (column_mapping : List (String × String))
    (row : List (String × Cell)) : List (String × Cell) :=
  row.foldl
    (fun acc kv =>
      if cellFalsy kv.2 || cellIsNa kv.2 then acc
      else
        match dictGet column_mapping (pyLower kv.1) with
        | some target => dictAssign acc (pyUpper target) kv.2
        | none => acc)
    []

/-- tools.py lines 2600-2614: project every row, keeping only non-empty
projections (`if extracted_row:`); `extracted_count` is the length. -/
def extractRows (column_mapping : List (String × String))
    (rows : List (List (String × Cell))) : List (List (String × Cell)) :=
  rows.foldl
    (fun acc row =>
      let r := extractRow column_mapping row
      if r.isEmpty then acc else acc ++ [r])
    []

/-- JSON rendering of a cell (only the shape matters to the claims). -/
def renderCell : Cell → String
  | .str s => "\"" ++ s ++ "\""
  | .num n => toString n
  | .nan => "NaN"
  | .obj tag => tag

/-- JSON rendering of one projected row. -/
def renderRow (r : List (String × Cell)) : String :=
  "\x7b" ++ String.intercalate ", "
    (r.map (fun kv => "\"" ++ kv.1 ++ "\": " ++ renderCell kv.2)) ++ "\x7d"

/-- tools.py lines 2633-2634: `json.dumps(extracted_data)` — succeeds unless
some cell is a non-serializable object, in which case it raises with the
standard `TypeError` message. -/
def jsonDumps (rows : List (List (String × Cell))) : Except String String :=
  match rows.findSome? (fun r => r.findSome? (fun kv =>
      match kv.2 with
      | .obj tag => some tag
      | _ => none)) with
  | some tag => .error ("Object of type " ++ tag ++ " is not JSON serializable")
  | none => .ok ("[" ++ String.intercalate ", " (rows.map renderRow) ++ "]")

/-- Product-list upload record stored under
`upload_product_list:{handle}:{request_id}`. -/
structure PlRec where
  session_id : Option String := none
  request_id : Option String := none
  status : Option String := none
  file_name : Option String := none
  file_path : Option String := none
  total_row : Option Int := none
  extracted_columns : Option (List String) := none
  mapped_data : Option (List (String × String)) := none
  extracted_data : Option String := none
  extracted_rows_count : Option String := none
  product_list_id : Option String := none
  uploaded_file_name : Option String := none
  uploaded_file_path : Option String := none
  error_message : Option String := none
  deriving DecidableEq, Repr

/-- utils.py lines 111-125: `reset_upload_session` for a product-list key
(called without `location_id`). -/
def resetPlRec (sh rid : String) : PlRec :=
  { session_id := some sh, request_id := some rid, status := some "inited" }

/-- Upload-form URL of the product-list flow (tools.py lines 2342/2534). -/
def plUploadUrl (sh rid : String) : String :=
  DOMAIN ++ "/uploadProductList?session_id=" ++ sh ++ "&request_id=" ++ rid

/-- Result of the product-list validate tool. -/
structure ValidatePlOut where
  resp : Resp
  sessionAfter : Option SessionRec
  uploadAfter : Option PlRec
  deriving DecidableEq, Repr

/-- tools.py lines 2403-2465: the field checks and the `validated` transition
that `validate_upload_product_list_excel_data` falls through to once no
status branch returned (reached from `uploaded`, `validated`, and from
`extracting` without a recorded `product_list_id`). -/
def validateFileChecks (sh rid : String) (sAfter : Option SessionRec) (u : PlRec) :
    ValidatePlOut :=
  let upload_url := plUploadUrl sh rid
  if !strTruthy u.file_path || !strTruthy u.file_name then
    { resp := { status := "error", code := "UPLOAD_ERROR",
                data := some { error_message := some "Error when accessing file. Please try again.",
                               upload_url := some upload_url },
                trace_id := sh },
      sessionAfter := sAfter, uploadAfter := some (resetPlRec sh rid) }
  else if !intTruthy u.total_row then
    { resp := { status := "error", code := "UPLOAD_ERROR",
                data := some { error_message := some "Not found any data from uploaded file. Please try again.",
                               upload_url := some upload_url },
                trace_id := sh },
      sessionAfter := sAfter, uploadAfter := some (resetPlRec sh rid) }
  else if !listTruthy u.extracted_columns then
    { resp := { status := "error", code := "UPLOAD_ERROR",
                data := some { error_message := some "Unable to extract columns from uploaded file. Please try again.",
                               upload_url := some upload_url },
                trace_id := sh },
      sessionAfter := sAfter, uploadAfter := some (resetPlRec sh rid) }
  else
    { resp := { status := "success", code := "OK",
                data := some { session_handle := some sh, request_id := some rid,
                               extracted_columns := u.extracted_columns },
                trace_id := sh },
      sessionAfter := sAfter, uploadAfter := some { u with status := some "validated" } }

/-- tools.py lines 2283-2465: `validate_upload_product_list_excel_data`. -/
def validate_upload_product_list_excel_data (sh rid : String)
    (session : Option SessionRec) (upload : Option PlRec) : ValidatePlOut :=
  match validate_session sh session with
  | { result := .err r, sessionAfter := sAfter, .. } =>
    { resp := r, sessionAfter := sAfter, uploadAfter := upload }
  | { result := .ok _info, sessionAfter := sAfter, .. } =>
    match upload with
    | none =>
      { resp := uploadSessionExpiredResp sh, sessionAfter := sAfter, uploadAfter := none }
    | some u =>
      let upload_url := plUploadUrl sh rid
      if u.status == some "processing" && listTruthy u.mapped_data then
        { resp := { status := "success", code := "UPLOAD_PROCESSING",
                    data := some { session_handle := some sh, request_id := some rid },
                    trace_id := sh },
          sessionAfter := sAfter, uploadAfter := some u }
      else if u.status == some "processed" then
        { resp := { status := "success", code := "UPLOAD_PROCESSED",
                    data := some { session_handle := some sh, request_id := some rid },
                    trace_id := sh },
          sessionAfter := sAfter, uploadAfter := some u }
      else if u.status == some "extracting" then
        if strTruthy u.product_list_id then
          { resp := { status := "success", code := "UPLOAD_EXTRACTING",
                      data := some { session_handle := some sh, request_id := some rid,
                                     product_list_id := u.product_list_id },
                      trace_id := sh },
            sessionAfter := sAfter, uploadAfter := some u }
        else
          -- the `elif` body returns nothing: control falls to the field checks
          validateFileChecks sh rid sAfter u
      else if !(u.status == some "uploaded" || u.status == some "validated") then
        let error :=
          if u.status == some "error" then
            "Upload error: " ++ pyShowOptStr u.error_message ++ ". Please try again."
          else "Upload not completed. Please try again."
        { resp := { status := "error", code := "UPLOAD_ERROR",
                    data := some { error_message := some error, upload_url := some upload_url },
                    trace_id := sh },
          sessionAfter := sAfter, uploadAfter := some (resetPlRec sh rid) }
      else
        validateFileChecks sh rid sAfter u

/-- Parsed JSON body of a 200 response of the backend import-submission
endpoint (`/substance/uploadProductList/`). -/
structure UploadPlRespData where
  file_name : Option String := none
  file_path : Option String := none
  product_list_id : Option String := none
  deriving DecidableEq, Repr

/-- Outcome of the import-submission POST (tools.py lines 2656-2666): a 200
with parseable JSON, a 200 whose body fails to parse (raising after the file
was already removed), a non-200 response, a raised transport-level exception,
or a local failure opening the temp file (both of the last two land in the
same `except Exception` handler). -/
inductive PostResult where
  | ok (rd : UploadPlRespData)
  | okBadJson (msg : String)
  | httpError (statusCode : Int) (body : Option ApiErrBody) (text : String)
  | transportError (msg : String)
  | localError (msg : String)
  deriving DecidableEq, Repr

/-- Result of the process tool: envelope, record values after the call,
whether the backend POST was issued, and the list of `os.remove`d paths. -/
structure ProcessPlOut where
  resp : Resp
  sessionAfter : Option SessionRec
  uploadAfter : Option PlRec
  backendCalled : Bool
  removed : List String
  deriving DecidableEq, Repr

/-- Envelope of the `except Exception` handlers of the process tool
(tools.py lines 2620-2631, 2635-2646, 2703-2714): `UPLOAD_PROCESS_ERROR`
plus a fresh upload URL, after `reset_upload_session`. -/
def uploadProcessErrorResp (sh : String) (msg upload_url : String) : Resp :=
  { status := "error", code := "UPLOAD_PROCESS_ERROR",
    data := some { error_message := some msg, upload_url := some upload_url },
    trace_id := sh }

/-- tools.py lines 2654-2714: the import-submission phase of
`process_upload_product_list_excel_data`.  `u` is the record as read at entry
(every `redis_client.set` in the source spreads `**upload_info`, the dict read
at entry, so the write on acceptance is built from `u`); `preRec` is the value
the upload key holds when the phase starts (i.e. after the `processed` write,
or `u` itself on the resume paths); `_extracted` is the serialized row payload
sent in the POST body. -/
def processSubmission (sh rid : String) (sAfter : Option SessionRec)
    (u preRec : PlRec) (file_path : String) (_extracted : Option String)
    (backend : PostResult) : ProcessPlOut :=
  let upload_url := plUploadUrl sh rid
  match backend with
  | .ok rd =>
    { resp := { status := "success", code := "OK",
                data := some { session_handle := some sh, request_id := some rid,
                               product_list_id := rd.product_list_id },
                trace_id := sh },
      sessionAfter := sAfter,
      uploadAfter := some { u with uploaded_file_name := rd.file_name,
                                   uploaded_file_path := rd.file_path,
                                   product_list_id := rd.product_list_id,
                                   status := some "extracting" },
      backendCalled := true, removed := [file_path] }
  | .okBadJson msg =>
    -- os.remove already ran; response.json() raised; caught by the outer handler
    { resp := uploadProcessErrorResp sh
        ("Error extracting file: " ++ msg ++ ". Please try again.") upload_url,
      sessionAfter := sAfter, uploadAfter := some (resetPlRec sh rid),
      backendCalled := true, removed := [file_path] }
  | .httpError sc body text =>
    match body with
    | some b =>
      let hae := handle_api_error sh sc text b sAfter
      { resp := hae.resp, sessionAfter := hae.sessionAfter,
        uploadAfter := some preRec, backendCalled := true, removed := [] }
    | none =>
      { resp := server_error_response sh sc text, sessionAfter := sAfter,
        uploadAfter := some preRec, backendCalled := true, removed := [] }
  | .transportError msg =>
    { resp := uploadProcessErrorResp sh
        ("Error extracting file: " ++ msg ++ ". Please try again.") upload_url,
      sessionAfter := sAfter, uploadAfter := some (resetPlRec sh rid),
      backendCalled := true, removed := [] }
  | .localError msg =>
    { resp := uploadProcessErrorResp sh
        ("Error extracting file: " ++ msg ++ ". Please try again.") upload_url,
      sessionAfter := sAfter, uploadAfter := some (resetPlRec sh rid),
      backendCalled := false, removed := [] }

/-- Outcome of `pd.read_excel(file_path).to_dict('records')` (tools.py lines
2597-2598): the row dictionaries, or a raised exception. -/
inductive ExcelResult where
  | ok (rows : List (List (String × Cell)))
  | err (msg : String)
  deriving DecidableEq, Repr

/-- tools.py lines 2585-2652 followed by the submission: the row-extraction
phase of the process tool (the final `else` of its status dispatch), given the
resolved column mapping `mappedD`.  The interim `processing` and
`extracted_rows_count` writes (lines 2586-2590, 2616-2619) are always
overwritten before any return and are not separately recorded. -/
def processExtractionPhase (sh rid : String) (sAfter : Option SessionRec) (u : PlRec)
    (mappedD : List (String × String)) (file_path : String) (total_row : Int)
    (excel : ExcelResult) (backend : PostResult) : ProcessPlOut :=
  let upload_url := plUploadUrl sh rid
  let column_mapping := columnMapping mappedD
  match excel with
  | .err msg =>
    { resp := uploadProcessErrorResp sh
        ("Error when processing file: " ++ msg ++ ". Please try again.") upload_url,
      sessionAfter := sAfter, uploadAfter := some (resetPlRec sh rid),
      backendCalled := false, removed := [] }
  | .ok rows =>
    let extracted := extractRows column_mapping rows
    let _extracted_rows_count : String :=
      toString extracted.length ++ "/" ++ toString (total_row - 1)
    match jsonDumps extracted with
    | .error msg =>
      { resp := uploadProcessErrorResp sh
          ("Error extracting file: " ++ msg ++ ". Please try again.") upload_url,
        sessionAfter := sAfter, uploadAfter := some (resetPlRec sh rid),
        backendCalled := false, removed := [] }
    | .ok converted =>
      let preRec : PlRec := { u with extracted_data := some converted,
                                     status := some "processed" }
      processSubmission sh rid sAfter u preRec file_path (some converted) backend

/-- tools.py lines 2469-2714: `process_upload_product_list_excel_data
(session_handle, request_id, mapped_data, auto_match_product)`.
`uploadAfter` is the value the upload key holds when the call returns. -/
def process_upload_product_list_excel_data (sh rid : String)
    (mapped_data_arg : List (String × String)) (_auto_match_product : Bool)
    (session : Option SessionRec) (upload : Option PlRec)
    (excel : ExcelResult) (backend : PostResult) : ProcessPlOut :=
  match validate_session sh session with
  | { result := .err r, sessionAfter := sAfter, .. } =>
    { resp := r, sessionAfter := sAfter, uploadAfter := upload,
      backendCalled := false, removed := [] }
  | { result := .ok _info, sessionAfter := sAfter, .. } =>
    match upload with
    | none =>
      { resp := uploadSessionExpiredResp sh, sessionAfter := sAfter,
        uploadAfter := none, backendCalled := false, removed := [] }
    | some u =>
      if !strTruthy u.file_path || !strTruthy u.file_name || !intTruthy u.total_row then
        { resp := { status := "error", code := "UPLOAD_VALIDATION_ERROR",
                    data := some { error_message := some "Validation error" },
                    trace_id := sh },
          sessionAfter := sAfter, uploadAfter := some u,
          backendCalled := false, removed := [] }
      else
        let file_path := u.file_path.getD ""
        let total_row := u.total_row.getD 0
        let upload_status := u.status
        let mapped : Option (List (String × String)) :=
          if mapped_data_arg.isEmpty then u.mapped_data else some mapped_data_arg
        if upload_status == some "processed" && strTruthy u.extracted_data then
          processSubmission sh rid sAfter u u file_path u.extracted_data backend
        else if upload_status == some "extracting" then
          if strTruthy u.product_list_id then
            { resp := { status := "success", code := "UPLOAD_EXTRACTING",
                        data := some { session_handle := some sh, request_id := some rid,
                                       product_list_id := u.product_list_id },
                        trace_id := sh },
              sessionAfter := sAfter, uploadAfter := some u,
              backendCalled := false, removed := [] }
          else
            -- the `elif` body returns nothing: control falls to the submission
            processSubmission sh rid sAfter u u file_path u.extracted_data backend
        else if !((upload_status == some "validated" || upload_status == some "processing")
                  && listTruthy mapped) then
          { resp := { status := "error", code := "UPLOAD_VALIDATION_ERROR",
                      data := some { error_message := some "Not validated" },
                      trace_id := sh },
            sessionAfter := sAfter, uploadAfter := some u,
            backendCalled := false, removed := [] }
        else
          processExtractionPhase sh rid sAfter u (mapped.getD []) file_path total_row
            excel backend

/-! ### Claims -/

/-- C7: for a handle whose cache record is present with `logged_in=true`,
`validate_session` returns the stored record unchanged with `expired=false`,
and the value the session key holds afterwards equals the value it held before
(the code re-`set`s the identical record through the cache layer, so the only
TTL effect is the one `RedisClient.set` always applies). -/
theorem C7_validate_session_frame (sh : String) (info : SessionRec)
    (h : info.logged_in = true) :
    validate_session sh (some info) =
      { result := .ok info, is_expired := false, sessionAfter := some info } := by
  simp [validate_session, h]

theorem C7_witness :
    validate_session "s" (some { logged_in := true }) =
      { result := .ok { logged_in := true }, is_expired := false,
        sessionAfter := some { logged_in := true } } :=
  C7_validate_session_frame "s" { logged_in := true } rfl

/-- C5: when the upstream rejects with `NOT_EXISTED_API_KEY` and the session
record exists, `handle_api_error` rewrites the record to
`logged_in=false, login_error=true` carrying the upstream message, never
deletes the key, and a subsequent `validate_session` on the same handle still
resolves the key and returns an error whose message equals the upstream
message. -/
theorem C5_invalidate_keeps_key (sh : String) (sc : Int) (text m : String)
    (hm : m ≠ "") (rec : SessionRec) :
    let out := handle_api_error sh sc text
      { error_message := some m, error_code := some "NOT_EXISTED_API_KEY" } (some rec)
    out.resp.code = "API_KEY_INVALID" ∧
    out.sessionAfter =
      some { logged_in := false, login_error := true, error_message := some m } ∧
    validate_session sh out.sessionAfter =
      { result := .err (authenticationErrorResp sh (some m)), is_expired := true,
        sessionAfter := some { logged_in := false, login_error := true,
                               error_message := some m } } ∧
    (authenticationErrorResp sh (some m)).data.map RespData.error_message
      = some (some m) := by
  simp [handle_api_error, strTruthy, hm, validate_session, authenticationErrorResp]

theorem C5_witness :
    let out := handle_api_error "s" 400 "t"
      { error_message := some "API key not found", error_code := some "NOT_EXISTED_API_KEY" }
      (some { logged_in := true, api_key := some "k" })
    out.resp.code = "API_KEY_INVALID" ∧
    out.sessionAfter = some { logged_in := false, login_error := true,
                              error_message := some "API key not found" } ∧
    validate_session "s" out.sessionAfter =
      { result := .err (authenticationErrorResp "s" (some "API key not found")),
        is_expired := true,
        sessionAfter := some { logged_in := false, login_error := true,
                               error_message := some "API key not found" } } ∧
    (authenticationErrorResp "s" (some "API key not found")).data.map
      RespData.error_message = some (some "API key not found") :=
  C5_invalidate_keeps_key "s" 400 "t" "API key not found" (by decide)
    { logged_in := true, api_key := some "k" }

/-- Helper: `get_login_url` either performs no cache write (both reuse
branches) or writes exactly one fresh unauthenticated record. -/
theorem get_login_url_writes (sh : Option String) (lk : Option SessionRec) (f : String) :
    (get_login_url sh lk f).writes = [] ∨
    (get_login_url sh lk f).writes =
      [(sessionKey f, { logged_in := false, login_error := false })] := by
  unfold get_login_url
  rcases sh with _ | h
  · simp
  · rcases lk with _ | info
    · by_cases hh : (h == "") = true <;> simp [hh]
    · by_cases hh : (h == "") = true <;> by_cases hl : info.logged_in <;> simp [hh, hl]

/-- C10: calling `get_login_url` with a handle whose record is absent never
re-registers the supplied handle: the only write is a fresh record under the
newly generated handle, the response is `SESSION_CREATED` for that new handle;
moreover every record `get_login_url` ever writes has `logged_in=false` and
`login_error=false`. -/
theorem C10_fresh_handle (h fresh : String) (hne : fresh ≠ h) :
    (let out := get_login_url (some h) none fresh
     out.writes = [(sessionKey fresh, { logged_in := false, login_error := false })] ∧
     (∀ w ∈ out.writes, w.1 ≠ sessionKey h) ∧
     out.resp.code = "SESSION_CREATED" ∧
     out.resp.data = some { session_handle := some fresh,
                            message := some "Login URL generated! Please login with your API key.",
                            login_url := some (DOMAIN ++ "/login?session_id=" ++ fresh) }) ∧
    ∀ sh lk f, ∀ w ∈ (get_login_url sh lk f).writes,
      w.2.logged_in = false ∧ w.2.login_error = false := by
  constructor
  · refine ⟨?_, ?_, ?_, ?_⟩
    · by_cases hh : (h == "") = true <;> simp [get_login_url, hh]
    · intro w hw
      by_cases hh : (h == "") = true <;>
        simp [get_login_url, hh] at hw <;>
        (subst hw; intro hk; exact hne (sessionKey_injective _ _ hk))
    · by_cases hh : (h == "") = true <;> simp [get_login_url, hh]
    · by_cases hh : (h == "") = true <;> simp [get_login_url, hh]
  · intro sh lk f w hw
    rcases get_login_url_writes sh lk f with hv | hv <;> rw [hv] at hw
    · simp at hw
    · simp at hw
      subst hw
      exact ⟨rfl, rfl⟩

/-- C3 counterexample: after a poll that observes `progress=100` (and so
stores status `finished`), the next call returns a payload that is NOT
identical to the first call's: the first call answers with code
`UPLOAD_EXTRACTING`, the second with code `UPLOAD_FINISHED`. -/
theorem C3_cex :
    let sess : SessionRec := { logged_in := true }
    let u : PdfRec := { session_id := some "s", request_id := some "r",
                        status := some "uploaded", location_id := some "42" }
    let d : ExtractData := { email := "e", request_id := "r", step := "done",
                             progress := 100 }
    let out1 := check_upload_sds_pdf_status "s" "r" (some sess) (some u) (.ok d)
    let out2 := check_upload_sds_pdf_status "s" "r" out1.sessionAfter
                  out1.uploadAfter (.ok d)
    out1.resp.data.map RespData.progress = some (some 100) ∧
    (out1.uploadAfter.map PdfRec.status) = some (some "finished") ∧
    out1.resp.code = "UPLOAD_EXTRACTING" ∧ out2.resp.code = "UPLOAD_FINISHED" ∧
    out2.resp ≠ out1.resp := by
  decide

/-- C3 amended: after a poll observes `progress=100`, the second call makes no
backend request, leaves both cache records unchanged, and returns a payload
with the same status, data and trace id as the first call's — but with code
`UPLOAD_FINISHED` instead of `UPLOAD_EXTRACTING` (and different instructions),
so the payloads are not literally identical; every call after the second
returns the second call's result exactly. -/
theorem C3_amended (sh rid : String) (sess : SessionRec) (hl : sess.logged_in = true)
    (u : PdfRec) (hst : u.status = some "uploaded" ∨ u.status = some "extracting")
    (d : ExtractData) (hd : d.progress = 100) (b2 : GetResult) :
    let out1 := check_upload_sds_pdf_status sh rid (some sess) (some u) (.ok d)
    let out2 := check_upload_sds_pdf_status sh rid out1.sessionAfter
                  out1.uploadAfter b2
    out1.resp.code = "UPLOAD_EXTRACTING" ∧
    out2.resp.code = "UPLOAD_FINISHED" ∧
    out2.resp.status = out1.resp.status ∧
    out2.resp.data = out1.resp.data ∧
    out2.resp.trace_id = out1.resp.trace_id ∧
    out2.backendCalled = false ∧
    out2.uploadAfter = out1.uploadAfter ∧
    out2.sessionAfter = out1.sessionAfter ∧
    (∀ b3, check_upload_sds_pdf_status sh rid out2.sessionAfter out2.uploadAfter b3
      = out2) := by
  rcases hst with h | h <;>
    simp [check_upload_sds_pdf_status, validate_session, hl, h, hd]

theorem C3_witness :
    let out1 := check_upload_sds_pdf_status "s" "r" (some { logged_in := true })
      (some { status := some "extracting" })
      (.ok { email := "e", request_id := "r", step := "done", progress := 100 })
    let out2 := check_upload_sds_pdf_status "s" "r" out1.sessionAfter
                  out1.uploadAfter (.transportError "x")
    out1.resp.code = "UPLOAD_EXTRACTING" ∧
    out2.resp.code = "UPLOAD_FINISHED" ∧
    out2.resp.status = out1.resp.status ∧
    out2.resp.data = out1.resp.data ∧
    out2.resp.trace_id = out1.resp.trace_id ∧
    out2.backendCalled = false ∧
    out2.uploadAfter = out1.uploadAfter ∧
    out2.sessionAfter = out1.sessionAfter ∧
    (∀ b3, check_upload_sds_pdf_status "s" "r" out2.sessionAfter out2.uploadAfter b3
      = out2) :=
  C3_amended "s" "r" { logged_in := true } rfl { status := some "extracting" }
    (Or.inr rfl) { email := "e", request_id := "r", step := "done", progress := 100 }
    rfl (.transportError "x")

/-- C6 counterexample: a transport-level exception during the import-submission
POST of `process_upload_product_list_excel_data` is caught by its broad
`except Exception` handler and answered with code `UPLOAD_PROCESS_ERROR`, not
`CONNECTION_ERROR`. -/
theorem C6_cex :
    let u : PlRec := { status := some "processed", file_name := some "f.xlsx",
                       file_path := some "/tmp/x.xlsx", total_row := some 2,
                       extracted_data := some "[]" }
    let out := process_upload_product_list_excel_data "s" "r" [] true
      (some { logged_in := true }) (some u) (.ok []) (.transportError "timed out")
    out.resp.code = "UPLOAD_PROCESS_ERROR" ∧ out.resp.code ≠ "CONNECTION_ERROR" := by
  decide

/-- C6 amended: transport-level exceptions from backend calls never escape a
tool, but they are not uniformly converted to `CONNECTION_ERROR`: tools whose
call is wrapped in the `requests.exceptions.RequestException` handler (such as
the PDF status poll) return a `CONNECTION_ERROR` envelope, while
`process_upload_product_list_excel_data` catches every exception from its
submission call and returns an `UPLOAD_PROCESS_ERROR` envelope, resetting the
upload record to `inited` and handing back a fresh upload URL. -/
theorem C6_amended (sh rid msg : String) (sess : SessionRec)
    (hl : sess.logged_in = true) :
    (∀ u : PdfRec, (u.status = some "uploaded" ∨ u.status = some "extracting") →
      (check_upload_sds_pdf_status sh rid (some sess) (some u)
        (.transportError msg)).resp = connection_error_response sh msg) ∧
    (connection_error_response sh msg).code = "CONNECTION_ERROR" ∧
    (∀ u : PlRec, u.status = some "processed" → strTruthy u.extracted_data = true →
      strTruthy u.file_path = true → strTruthy u.file_name = true →
      intTruthy u.total_row = true →
      ∀ (md : List (String × String)) (am : Bool) (excel : ExcelResult),
        process_upload_product_list_excel_data sh rid md am (some sess) (some u)
            excel (.transportError msg) =
          { resp := uploadProcessErrorResp sh
              ("Error extracting file: " ++ msg ++ ". Please try again.")
              (plUploadUrl sh rid),
            sessionAfter := some sess, uploadAfter := some (resetPlRec sh rid),
            backendCalled := true, removed := [] }) ∧
    (uploadProcessErrorResp sh ("Error extracting file: " ++ msg ++ ". Please try again.")
      (plUploadUrl sh rid)).code = "UPLOAD_PROCESS_ERROR" := by
  refine ⟨?_, rfl, ?_, rfl⟩
  · intro u h
    rcases h with h | h <;>
      simp [check_upload_sds_pdf_status, validate_session, hl, h]
  · intro u h1 h2 h3 h4 h5 md am excel
    simp [process_upload_product_list_excel_data, validate_session, hl,
      h1, h2, h3, h4, h5, processSubmission]

theorem C6_witness :
    (∀ u : PdfRec, (u.status = some "uploaded" ∨ u.status = some "extracting") →
      (check_upload_sds_pdf_status "s" "r" (some { logged_in := true }) (some u)
        (.transportError "refused")).resp = connection_error_response "s" "refused") ∧
    (connection_error_response "s" "refused").code = "CONNECTION_ERROR" ∧
    (∀ u : PlRec, u.status = some "processed" → strTruthy u.extracted_data = true →
      strTruthy u.file_path = true → strTruthy u.file_name = true →
      intTruthy u.total_row = true →
      ∀ (md : List (String × String)) (am : Bool) (excel : ExcelResult),
        process_upload_product_list_excel_data "s" "r" md am
            (some { logged_in := true }) (some u) excel (.transportError "refused") =
          { resp := uploadProcessErrorResp "s"
              ("Error extracting file: " ++ "refused" ++ ". Please try again.")
              (plUploadUrl "s" "r"),
            sessionAfter := some { logged_in := true },
            uploadAfter := some (resetPlRec "s" "r"),
            backendCalled := true, removed := [] }) ∧
    (uploadProcessErrorResp "s"
      ("Error extracting file: " ++ "refused" ++ ". Please try again.")
      (plUploadUrl "s" "r")).code = "UPLOAD_PROCESS_ERROR" :=
  C6_amended "s" "r" "refused" { logged_in := true } rfl

/-- C4: when the backend import-submission POST returns HTTP 200, the process
tool deletes the local temp file exactly once, stores the backend-assigned
`product_list_id` in the cache record, sets the record's status to
`extracting`, and returns that `product_list_id` in the response data. -/
theorem C4_backend_accepts (sh rid : String) (sess : SessionRec)
    (hl : sess.logged_in = true) (u : PlRec) (fp : String)
    (hfp : u.file_path = some fp) (hfp2 : fp ≠ "")
    (hfn : strTruthy u.file_name = true) (htr : intTruthy u.total_row = true)
    (hst : u.status = some "validated" ∨ u.status = some "processing")
    (md : List (String × String)) (hmd : md ≠ []) (am : Bool)
    (rows : List (List (String × Cell))) (conv : String)
    (hser : jsonDumps (extractRows (columnMapping md) rows) = .ok conv)
    (rd : UploadPlRespData) :
    let out := process_upload_product_list_excel_data sh rid md am (some sess)
      (some u) (.ok rows) (.ok rd)
    out.removed = [fp] ∧
    out.uploadAfter = some { u with uploaded_file_name := rd.file_name,
                                    uploaded_file_path := rd.file_path,
                                    product_list_id := rd.product_list_id,
                                    status := some "extracting" } ∧
    out.resp.status = "success" ∧ out.resp.code = "OK" ∧
    out.resp.data.map RespData.product_list_id = some rd.product_list_id := by
  have hmd' : md.isEmpty = false := by
    cases md with
    | nil => exact absurd rfl hmd
    | cons a l => rfl
  have hfp' : strTruthy (some fp) = true := by simp [strTruthy, hfp2]
  rcases hst with h | h <;>
    simp [process_upload_product_list_excel_data, validate_session, hl, h,
      hfp, hfp', hfn, htr, hmd', listTruthy,
      processExtractionPhase, hser, processSubmission]

theorem C4_witness :
    let u : PlRec := { status := some "validated", file_name := some "f.xlsx",
                       file_path := some "/tmp/x.xlsx", total_row := some 3 }
    let rd : UploadPlRespData := { file_name := some "srv.xlsx",
                                   file_path := some "/srv/x.xlsx",
                                   product_list_id := some "77" }
    let out := process_upload_product_list_excel_data "s" "r"
      [("product_name", "product name")] true (some { logged_in := true })
      (some u) (.ok []) (.ok rd)
    out.removed = ["/tmp/x.xlsx"] ∧
    out.uploadAfter = some { u with uploaded_file_name := rd.file_name,
                                    uploaded_file_path := rd.file_path,
                                    product_list_id := rd.product_list_id,
                                    status := some "extracting" } ∧
    out.resp.status = "success" ∧ out.resp.code = "OK" ∧
    out.resp.data.map RespData.product_list_id = some rd.product_list_id :=
  C4_backend_accepts "s" "r" { logged_in := true } rfl
    { status := some "validated", file_name := some "f.xlsx",
      file_path := some "/tmp/x.xlsx", total_row := some 3 }
    "/tmp/x.xlsx" rfl (by decide) (by decide) (by decide) (Or.inl rfl)
    [("product_name", "product name")] (by decide) true [] "[]" rfl
    { file_name := some "srv.xlsx", file_path := some "/srv/x.xlsx",
      product_list_id := some "77" }

/-- C1 counterexample: a process call on a record in status `error` (claimed
to be "rewritten to status inited" with "a fresh upload URL") in fact returns
`UPLOAD_VALIDATION_ERROR` with no upload URL and leaves the record untouched
in status `error`. -/
theorem C1_cex :
    let u : PlRec := { status := some "error", file_name := some "f.xlsx",
                       file_path := some "/tmp/x.xlsx", total_row := some 3,
                       error_message := some "boom" }
    let out := process_upload_product_list_excel_data "s" "r"
      [("product_name", "product name")] true (some { logged_in := true })
      (some u) (.ok []) (.ok {})
    out.uploadAfter = some u ∧ u.status = some "error" ∧
    out.resp.code = "UPLOAD_VALIDATION_ERROR" ∧
    out.resp.data.map RespData.upload_url = some none := by
  decide

/-- C1 amended: for the validate step, the field checks are reached from
status `uploaded` or `validated`, and also from `extracting` when no
`product_list_id` is recorded; `processing` (with a stored mapping),
`processed` and `extracting` (with a `product_list_id`) short-circuit without
touching the record; any other status resets the record to `inited` and
returns a fresh upload URL.  For the process step, row extraction is reached
exactly from status `validated` or `processing` with an available column
mapping; `processed` with stored extracted data resumes straight to the
backend submission, `extracting` with a recorded `product_list_id`
short-circuits with `UPLOAD_EXTRACTING` leaving the record unchanged, and
`extracting` without one falls through to the submission with the stored
payload; any other unexpected status yields an `UPLOAD_VALIDATION_ERROR`
response that leaves the record unchanged (no reset to `inited`) and carries
no upload URL. -/
theorem C1_amended (sh rid : String) (sess : SessionRec) (hl : sess.logged_in = true)
    (u : PlRec) :
    ((u.status = some "uploaded" ∨ u.status = some "validated" ∨
      (u.status = some "extracting" ∧ strTruthy u.product_list_id = false)) →
      validate_upload_product_list_excel_data sh rid (some sess) (some u) =
        validateFileChecks sh rid (some sess) u) ∧
    (u.status = some "processing" → listTruthy u.mapped_data = true →
      (validate_upload_product_list_excel_data sh rid (some sess) (some u)).resp.code =
        "UPLOAD_PROCESSING" ∧
      (validate_upload_product_list_excel_data sh rid (some sess) (some u)).uploadAfter =
        some u) ∧
    (u.status = some "processed" →
      (validate_upload_product_list_excel_data sh rid (some sess) (some u)).resp.code =
        "UPLOAD_PROCESSED" ∧
      (validate_upload_product_list_excel_data sh rid (some sess) (some u)).uploadAfter =
        some u) ∧
    (u.status = some "extracting" → strTruthy u.product_list_id = true →
      (validate_upload_product_list_excel_data sh rid (some sess) (some u)).resp.code =
        "UPLOAD_EXTRACTING" ∧
      (validate_upload_product_list_excel_data sh rid (some sess) (some u)).uploadAfter =
        some u) ∧
    (u.status ≠ some "uploaded" → u.status ≠ some "validated" →
      u.status ≠ some "processed" → u.status ≠ some "extracting" →
      ¬(u.status = some "processing" ∧ listTruthy u.mapped_data = true) →
      (validate_upload_product_list_excel_data sh rid (some sess) (some u)).uploadAfter =
        some (resetPlRec sh rid) ∧
      (validate_upload_product_list_excel_data sh rid (some sess) (some u)).resp.code =
        "UPLOAD_ERROR" ∧
      (validate_upload_product_list_excel_data sh rid (some sess) (some u)).resp.data.map
        RespData.upload_url = some (some (plUploadUrl sh rid))) ∧
    (∀ (md : List (String × String)) (am : Bool) (excel : ExcelResult)
       (backend : PostResult),
      strTruthy u.file_path = true → strTruthy u.file_name = true →
      intTruthy u.total_row = true →
      (u.status = some "validated" ∨ u.status = some "processing") →
      listTruthy (if md.isEmpty then u.mapped_data else some md) = true →
      process_upload_product_list_excel_data sh rid md am (some sess) (some u)
          excel backend =
        processExtractionPhase sh rid (some sess) u
          ((if md.isEmpty then u.mapped_data else some md).getD [])
          (u.file_path.getD "") (u.total_row.getD 0) excel backend) ∧
    (∀ (md : List (String × String)) (am : Bool) (excel : ExcelResult)
       (backend : PostResult),
      strTruthy u.file_path = true → strTruthy u.file_name = true →
      intTruthy u.total_row = true →
      ¬(u.status = some "processed" ∧ strTruthy u.extracted_data = true) →
      u.status ≠ some "extracting" →
      ¬((u.status = some "validated" ∨ u.status = some "processing") ∧
        listTruthy (if md.isEmpty then u.mapped_data else some md) = true) →
      process_upload_product_list_excel_data sh rid md am (some sess) (some u)
          excel backend =
        { resp := { status := "error", code := "UPLOAD_VALIDATION_ERROR",
                    data := some { error_message := some "Not validated" },
                    trace_id := sh },
          sessionAfter := some sess, uploadAfter := some u,
          backendCalled := false, removed := [] }) ∧
    (∀ (md : List (String × String)) (am : Bool) (excel : ExcelResult)
       (backend : PostResult),
      strTruthy u.file_path = true → strTruthy u.file_name = true →
      intTruthy u.total_row = true →
      u.status = some "processed" → strTruthy u.extracted_data = true →
      process_upload_product_list_excel_data sh rid md am (some sess) (some u)
          excel backend =
        processSubmission sh rid (some sess) u u (u.file_path.getD "")
          u.extracted_data backend) ∧
    (∀ (md : List (String × String)) (am : Bool) (excel : ExcelResult)
       (backend : PostResult),
      strTruthy u.file_path = true → strTruthy u.file_name = true →
      intTruthy u.total_row = true →
      u.status = some "extracting" → strTruthy u.product_list_id = true →
      process_upload_product_list_excel_data sh rid md am (some sess) (some u)
          excel backend =
        { resp := { status := "success", code := "UPLOAD_EXTRACTING",
                    data := some { session_handle := some sh, request_id := some rid,
                                   product_list_id := u.product_list_id },
                    trace_id := sh },
          sessionAfter := some sess, uploadAfter := some u,
          backendCalled := false, removed := [] }) ∧
    (∀ (md : List (String × String)) (am : Bool) (excel : ExcelResult)
       (backend : PostResult),
      strTruthy u.file_path = true → strTruthy u.file_name = true →
      intTruthy u.total_row = true →
      u.status = some "extracting" → strTruthy u.product_list_id = false →
      process_upload_product_list_excel_data sh rid md am (some sess) (some u)
          excel backend =
        processSubmission sh rid (some sess) u u (u.file_path.getD "")
          u.extracted_data backend) := by
  refine ⟨?_, ?_, ?_, ?_, ?_, ?_, ?_, ?_, ?_, ?_⟩
  · rintro (h | h | ⟨h, hp⟩)
    · simp [validate_upload_product_list_excel_data, validate_session, hl, h]
    · simp [validate_upload_product_list_excel_data, validate_session, hl, h]
    · simp [validate_upload_product_list_excel_data, validate_session, hl, h, hp]
  · intro h hm
    simp [validate_upload_product_list_excel_data, validate_session, hl, h, hm]
  · intro h
    simp [validate_upload_product_list_excel_data, validate_session, hl, h]
  · intro h hp
    simp [validate_upload_product_list_excel_data, validate_session, hl, h, hp]
  · intro h1 h2 h3 h4 h5
    by_cases hp : u.status = some "processing"
    · have hm : listTruthy u.mapped_data = false := by
        rcases Bool.eq_false_or_eq_true (listTruthy u.mapped_data) with hb | hb
        · exact absurd ⟨hp, hb⟩ h5
        · exact hb
      simp [validate_upload_product_list_excel_data, validate_session, hl,
        hp, hm, h1, h2, h3, h4]
    · simp [validate_upload_product_list_excel_data, validate_session, hl,
        hp, h1, h2, h3, h4]
  · intro md am excel backend hfp hfn htr hst hm
    by_cases hmd : md = [] <;>
      rcases hst with h | h <;>
        simp_all [process_upload_product_list_excel_data, validate_session,
          listTruthy]
  · intro md am excel backend hfp hfn htr hpe hex hvm
    have hb3 : listTruthy (if md.isEmpty then u.mapped_data else some md) = true ∨
        listTruthy (if md.isEmpty then u.mapped_data else some md) = false :=
      Bool.eq_false_or_eq_true _
    have hv : listTruthy (if md.isEmpty then u.mapped_data else some md) = true →
        u.status ≠ some "validated" := fun hb hc => hvm ⟨Or.inl hc, hb⟩
    have hpr : listTruthy (if md.isEmpty then u.mapped_data else some md) = true →
        u.status ≠ some "processing" := fun hb hc => hvm ⟨Or.inr hc, hb⟩
    have hed : u.status = some "processed" → strTruthy u.extracted_data = false := by
      intro hc
      rcases Bool.eq_false_or_eq_true (strTruthy u.extracted_data) with hb | hb
      · exact absurd ⟨hc, hb⟩ hpe
      · exact hb
    by_cases hp : u.status = some "processed" <;>
      by_cases hmd : md = [] <;>
        rcases hb3 with hb | hb <;>
          simp_all [process_upload_product_list_excel_data, validate_session,
            listTruthy]
  · intro md am excel backend hfp hfn htr h hed
    simp [process_upload_product_list_excel_data, validate_session, hl, h, hed,
      hfp, hfn, htr]
  · intro md am excel backend hfp hfn htr h hpl
    simp [process_upload_product_list_excel_data, validate_session, hl, h, hpl,
      hfp, hfn, htr]
  · intro md am excel backend hfp hfn htr h hpl
    simp [process_upload_product_list_excel_data, validate_session, hl, h, hpl,
      hfp, hfn, htr]

theorem C1_witness :
    validate_upload_product_list_excel_data "s" "r" (some { logged_in := true })
        (some { status := some "uploaded" }) =
      validateFileChecks "s" "r" (some { logged_in := true })
        { status := some "uploaded" } :=
  (C1_amended "s" "r" { logged_in := true } rfl { status := some "uploaded" }).1
    (Or.inl rfl)

/-- C8 counterexample: with a `mapped_data` that maps field names to the
spreadsheet's literal (uppercase) column names, the projection produces ZERO
rows, not one: the code lowercases the sheet header before the lookup but the
inverted mapping keeps the mapped column names verbatim, so nothing matches;
running the whole process step on such input stores the empty payload "[]". -/
theorem C8_cex :
    extractRows (columnMapping
        [("product_name", "PRODUCT NAME"), ("supplier_of_sds", "SUPPLIER OF SDS")])
      [[("PRODUCT NAME", .str "Acetone"), ("SUPPLIER OF SDS", .str "Acme Corp")]]
      = [] ∧
    (let u : PlRec := { status := some "validated", file_name := some "f.xlsx",
                        file_path := some "/tmp/x.xlsx", total_row := some 2 }
     let out := process_upload_product_list_excel_data "s" "r"
       [("product_name", "PRODUCT NAME"), ("supplier_of_sds", "SUPPLIER OF SDS")]
       true (some { logged_in := true }) (some u)
       (.ok [[("PRODUCT NAME", .str "Acetone"), ("SUPPLIER OF SDS", .str "Acme Corp")]])
       (.httpError 500 none "err")
     out.uploadAfter.map PlRec.extracted_data = some (some "[]")) := by
  constructor
  · decide
  · decide

/-- C8 amended: with `mapped_data` mapping field names to the LOWERCASED
column names (the form the validate step exposes in `extracted_columns`), a
one-row spreadsheet with columns "PRODUCT NAME" and "SUPPLIER OF SDS" projects
to exactly one extracted row whose keys are the uppercased target field names,
with empty/NaN cells omitted from that row. -/
theorem C8_amended (a b : Cell) (ha : (cellFalsy a || cellIsNa a) = false) :
    extractRows (columnMapping
        [("product_name", "product name"), ("supplier_of_sds", "supplier of sds")])
      [[("PRODUCT NAME", a), ("SUPPLIER OF SDS", b)]] =
      [("PRODUCT_NAME", a) ::
        (if (cellFalsy b || cellIsNa b) = true then []
         else [("SUPPLIER_OF_SDS", b)])] := by
  have hcm : columnMapping
      [("product_name", "product name"), ("supplier_of_sds", "supplier of sds")] =
      [("product name", "product_name"), ("supplier of sds", "supplier_of_sds")] := by
    decide
  have h1 : dictGet [("product name", "product_name"),
      ("supplier of sds", "supplier_of_sds")] (pyLower "PRODUCT NAME") =
      some "product_name" := by decide
  have h2 : dictGet [("product name", "product_name"),
      ("supplier of sds", "supplier_of_sds")] (pyLower "SUPPLIER OF SDS") =
      some "supplier_of_sds" := by decide
  have h3 : pyUpper "product_name" = "PRODUCT_NAME" := by decide
  have h4 : pyUpper "supplier_of_sds" = "SUPPLIER_OF_SDS" := by decide
  have ha' : cellFalsy a = false ∧ cellIsNa a = false := by simpa using ha
  rcases Bool.eq_false_or_eq_true (cellFalsy b || cellIsNa b) with hb | hb
  · have hb' : cellFalsy b = true ∨ cellIsNa b = true := by simpa using hb
    simp [extractRows, extractRow, hcm, h1, h2, h3, h4, dictAssign,
      ha'.1, ha'.2, hb, hb']
  · have hb' : cellFalsy b = false ∧ cellIsNa b = false := by simpa using hb
    simp [extractRows, extractRow, hcm, h1, h2, h3, h4, dictAssign,
      ha'.1, ha'.2, hb, hb'.1, hb'.2]

theorem C8_witness :
    extractRows (columnMapping
        [("product_name", "product name"), ("supplier_of_sds", "supplier of sds")])
      [[("PRODUCT NAME", Cell.str "Acetone"), ("SUPPLIER OF SDS", Cell.nan)]] =
      [("PRODUCT_NAME", Cell.str "Acetone") ::
        (if (cellFalsy Cell.nan || cellIsNa Cell.nan) = true then []
         else [("SUPPLIER_OF_SDS", Cell.nan)])] :=
  C8_amended (Cell.str "Acetone") Cell.nan (by decide)

/-- C9: polling a PDF-upload record whose status is outside
`uploaded`/`extracting`/`finished` and which carries no truthy `location_id`
returns an `UPLOAD_ERROR` envelope with message "Not found location" and no
upload URL, leaves the record unmodified (no reset) and makes no backend
request. -/
theorem C9_no_location_no_reset (sh rid : String) (sess : SessionRec)
    (hl : sess.logged_in = true) (u : PdfRec)
    (hloc : strTruthy u.location_id = false)
    (h1 : u.status ≠ some "uploaded") (h2 : u.status ≠ some "extracting")
    (h3 : u.status ≠ some "finished") (backend : GetResult) :
    check_upload_sds_pdf_status sh rid (some sess) (some u) backend =
      { resp := { status := "error", code := "UPLOAD_ERROR",
                  data := some { error_message := some "Not found location" },
                  trace_id := sh },
        sessionAfter := some sess, uploadAfter := some u, backendCalled := false } := by
  simp [check_upload_sds_pdf_status, validate_session, hl, hloc, beq_iff_eq, h1, h2, h3]

theorem C9_witness :
    check_upload_sds_pdf_status "s" "r" (some { logged_in := true })
      (some { status := some "error", error_message := some "boom" })
      (.transportError "x") =
      { resp := { status := "error", code := "UPLOAD_ERROR",
                  data := some { error_message := some "Not found location" },
                  trace_id := "s" },
        sessionAfter := some { logged_in := true },
        uploadAfter := some { status := some "error", error_message := some "boom" },
        backendCalled := false } :=
  C9_no_location_no_reset "s" "r" { logged_in := true } rfl
    { status := some "error", error_message := some "boom" }
    (by decide) (by decide) (by decide) (by decide) (.transportError "x")

/-- C2: polling a PDF-upload record whose status is outside
`uploaded`/`extracting`/`finished` and which carries a `location_id` leaves
the cache record equal to an `inited` record preserving that `location_id`,
and returns an error envelope carrying a freshly generated upload URL for the
same `request_id`, without calling the backend. -/
theorem C2_reset_preserves_location (sh rid : String) (sess : SessionRec)
    (hl : sess.logged_in = true) (u : PdfRec) (loc : String)
    (hloc : u.location_id = some loc) (hloc2 : loc ≠ "")
    (h1 : u.status ≠ some "uploaded") (h2 : u.status ≠ some "extracting")
    (h3 : u.status ≠ some "finished") (backend : GetResult) :
    let out := check_upload_sds_pdf_status sh rid (some sess) (some u) backend
    out.uploadAfter = some { session_id := some sh, request_id := some rid,
                             status := some "inited", location_id := some loc } ∧
    out.resp.status = "error" ∧ out.resp.code = "UPLOAD_ERROR" ∧
    out.resp.data.map RespData.upload_url = some (some (pdfUploadUrl sh loc rid)) ∧
    out.backendCalled = false := by
  simp [check_upload_sds_pdf_status, validate_session, hl, hloc, strTruthy, hloc2,
    beq_iff_eq, h1, h2, h3, resetPdfRec]

theorem C2_witness :
    let out := check_upload_sds_pdf_status "s" "r" (some { logged_in := true })
      (some { status := some "error", location_id := some "42",
              error_message := some "boom" }) (.transportError "x")
    out.uploadAfter = some { session_id := some "s", request_id := some "r",
                             status := some "inited", location_id := some "42" } ∧
    out.resp.status = "error" ∧ out.resp.code = "UPLOAD_ERROR" ∧
    out.resp.data.map RespData.upload_url = some (some (pdfUploadUrl "s" "42" "r")) ∧
    out.backendCalled = false :=
  C2_reset_preserves_location "s" "r" { logged_in := true } rfl
    { status := some "error", location_id := some "42", error_message := some "boom" }
    "42" rfl (by decide) (by decide) (by decide) (by decide) (.transportError "x")

theorem C10_witness :
    (let out := get_login_url (some "a") none "b"
     out.writes = [(sessionKey "b", { logged_in := false, login_error := false })] ∧
     (∀ w ∈ out.writes, w.1 ≠ sessionKey "a") ∧
     out.resp.code = "SESSION_CREATED" ∧
     out.resp.data = some { session_handle := some "b",
                            message := some "Login URL generated! Please login with your API key.",
                            login_url := some (DOMAIN ++ "/login?session_id=" ++ "b") }) ∧
    ∀ sh lk f, ∀ w ∈ (get_login_url sh lk f).writes,
      w.2.logged_in = false ∧ w.2.login_error = false :=
  C10_fresh_handle "a" "b" (by decide)

end SdsMcp
